import Mathlib

/-!
Verification of the MCP Time HTTP server (`src/mcp_server_time/http_server.py`).

The file embeds, as pure Lean functions, the pieces of the server that the
claims are about: the `call_tool` dispatcher, the `list_tools` registry, the
stateless direct-POST handler for `/mcp` (`handle_direct_post`), and the
top-level ASGI routing (`app`).  The time operations themselves live in
`server.py`, which is not part of the sources under inspection; they are
modelled abstractly (see `TimeOps`).
-/

/-- A JSON value, as produced and consumed by the Python handlers.
Numbers are modelled as integers: every number the server ever places in an
envelope (ids, error codes) is integral. -/
inductive Json where
  | null : Json
  | bool (b : Bool) : Json
  | num (n : Int) : Json
  | str (s : String) : Json
  | arr (xs : List Json) : Json
  | obj (fields : List (String × Json)) : Json
deriving Repr

/-- Field lookup in a JSON object (Python `dict.get` on a parsed object);
`none` on absent keys and on non-objects. -/
def Json.get : Json → String → Option Json
  | .obj fs, k => (fs.find? (fun p => p.1 = k)).map (fun p => p.2)
  | _, _ => none

/-- Extract the string payload of a JSON string value. -/
def Json.asStr : Json → Option String
  | .str s => some s
  | _ => none

namespace TimeTools

/-- `TimeTools.GET_CURRENT_TIME.value` in the source. -/
def GET_CURRENT_TIME : String := "get_current_time"

/-- `TimeTools.CONVERT_TIME.value` in the source. -/
def CONVERT_TIME : String := "convert_time"

end TimeTools

/-- `mcp.types.TextContent`: the single content-block shape the server emits. -/
structure TextContent where
  type : String
  text : String
deriving Repr, DecidableEq

/-- Modelled from the spec: the two time operations (`TimeServer.get_current_time`
and `TimeServer.convert_time`) live in `server.py`, which is not among the
sources under inspection.  Per the spec they either return a structured result
(whose model dump is a JSON value) or fail with a domain error
(`UnknownTimezone`, `InvalidTimeFormat`) carrying a human-readable message;
a failure is modelled as `Except.error` holding the exception's `str`. -/
structure TimeOps where
  get_current_time : String → Except String Json
  convert_time : String → String → String → Except String Json

/-- The `arguments` mapping of a `tools/call` request.  The spec fixes the
values to strings for this domain. -/
def Args : Type := List (String × String)

/-- Python `arguments.get(k)`. -/
def getArg (arguments : Args) (k : String) : Option String :=
  ((arguments : List (String × String)).find? (fun p => p.1 = k)).map (fun p => p.2)

/-- Python `k in arguments`. -/
def hasArg (arguments : Args) (k : String) : Bool :=
  ((arguments : List (String × String)).find? (fun p => p.1 = k)).isSome

/-- Python `json.dumps`.  The `indent=2` pretty-printing layout of the source
is not modelled: the claims never inspect whitespace of a serialized result. -/
def Json.dumps : Json → String
  | .null => "null"
  | .bool true => "true"
  | .bool false => "false"
  | .num n => toString n
  | .str s => "\"" ++ s ++ "\""
  | .arr xs => "[" ++ String.intercalate ", " (xs.attach.map (fun x => Json.dumps x.1)) ++ "]"
  | .obj fs => "\x7b" ++ String.intercalate ", "
      (fs.attach.map (fun f => "\"" ++ f.1.1 ++ "\": " ++ Json.dumps f.1.2)) ++ "\x7d"
decreasing_by
· have h := List.sizeOf_lt_of_mem x.2
  simp at h ⊢
  omega
· have h := List.sizeOf_lt_of_mem f.2
  obtain ⟨⟨k, v⟩, hm⟩ := f
  simp at h ⊢
  omega

/-- The body of `call_tool` before the outer `except` clause: the
`match name` statement.  Python's `not timezone` is true both when the key
is absent (`None`) and when it is bound to the empty string, hence the two
missing-argument branches; the `convert_time` guard checks key presence
only (`k in arguments`), whatever the value. -/
def call_tool_body (ops : TimeOps) (name : String) (arguments : Args) :
    Except String (List TextContent) :=
  match
    (if name = TimeTools.GET_CURRENT_TIME then
      match getArg arguments "timezone" with
      | none => Except.error "Missing required argument: timezone"
      | some tz =>
          if tz = "" then Except.error "Missing required argument: timezone"
          else ops.get_current_time tz
    else if name = TimeTools.CONVERT_TIME then
      if hasArg arguments "source_timezone" && hasArg arguments "time" &&
          hasArg arguments "target_timezone" then
        ops.convert_time ((getArg arguments "source_timezone").getD "")
          ((getArg arguments "time").getD "")
          ((getArg arguments "target_timezone").getD "")
      else Except.error "Missing required arguments"
    else Except.error ("Unknown tool: " ++ name)) with
  | Except.ok result => Except.ok [TextContent.mk "text" (Json.dumps result)]
  | Except.error e => Except.error e

/-- `call_tool`: the body wrapped in the outer `except Exception` clause,
which re-raises every failure as `ValueError(f"Error processing
mcp-server-time query: {str(e)}")`. -/
def call_tool (ops : TimeOps) (name : String) (arguments : Args) :
    Except String (List TextContent) :=
  match call_tool_body ops name arguments with
  | Except.ok content => Except.ok content
  | Except.error e => Except.error ("Error processing mcp-server-time query: " ++ e)

/-- `mcp.types.Tool`: a tool descriptor as returned by the session-based
`list_tools` handler. -/
structure Tool where
  name : String
  description : String
  inputSchema : Json
deriving Repr

/-- The `list_tools` handler registered on the MCP server: the static
registry of the two tool descriptors, with `local_tz` interpolated into the
descriptions exactly as the f-strings of the source do. -/
def list_tools (local_tz : String) : List Tool :=
  [ { name := TimeTools.GET_CURRENT_TIME,
      description := "Get current time in a specific timezones",
      inputSchema := Json.obj
        [ ("type", Json.str "object"),
          ("properties", Json.obj
            [ ("timezone", Json.obj
                [ ("type", Json.str "string"),
                  ("description", Json.str
                    ("IANA timezone name (e.g., 'America/New_York', 'Europe/London'). Use '"
                      ++ local_tz ++ "' as local timezone if no timezone provided by the user.")) ]) ]),
          ("required", Json.arr [Json.str "timezone"]) ] },
    { name := TimeTools.CONVERT_TIME,
      description := "Convert time between timezones",
      inputSchema := Json.obj
        [ ("type", Json.str "object"),
          ("properties", Json.obj
            [ ("source_timezone", Json.obj
                [ ("type", Json.str "string"),
                  ("description", Json.str
                    ("Source IANA timezone name (e.g., 'America/New_York', 'Europe/London'). Use '"
                      ++ local_tz ++ "' as local timezone if no source timezone provided by the user.")) ]),
              ("time", Json.obj
                [ ("type", Json.str "string"),
                  ("description", Json.str "Time to convert in 24-hour format (HH:MM)") ]),
              ("target_timezone", Json.obj
                [ ("type", Json.str "string"),
                  ("description", Json.str
                    ("Target IANA timezone name (e.g., 'Asia/Tokyo', 'America/San_Francisco'). Use '"
                      ++ local_tz ++ "' as local timezone if no target timezone provided by the user.")) ]) ]),
          ("required", Json.arr
            [Json.str "source_timezone", Json.str "time", Json.str "target_timezone"]) ] } ]

/-- The `tools_list` literal that `handle_direct_post` builds for a
`tools/list` request ("manually since we know what they are"). -/
def direct_tools_list (local_tz : String) : List Json :=
  [ Json.obj
      [ ("name", Json.str "get_current_time"),
        ("description", Json.str "Get current time in a specific timezones"),
        ("inputSchema", Json.obj
          [ ("type", Json.str "object"),
            ("properties", Json.obj
              [ ("timezone", Json.obj
                  [ ("type", Json.str "string"),
                    ("description", Json.str
                      ("IANA timezone name (e.g., 'America/New_York', 'Europe/London'). Use '"
                        ++ local_tz ++ "' as local timezone if no timezone provided by the user.")) ]) ]),
            ("required", Json.arr [Json.str "timezone"]) ]) ],
    Json.obj
      [ ("name", Json.str "convert_time"),
        ("description", Json.str "Convert time between timezones"),
        ("inputSchema", Json.obj
          [ ("type", Json.str "object"),
            ("properties", Json.obj
              [ ("source_timezone", Json.obj
                  [ ("type", Json.str "string"),
                    ("description", Json.str
                      ("Source IANA timezone name (e.g., 'America/New_York', 'Europe/London'). Use '"
                        ++ local_tz ++ "' as local timezone if no source timezone provided by the user.")) ]),
                ("time", Json.obj
                  [ ("type", Json.str "string"),
                    ("description", Json.str "Time to convert in 24-hour format (HH:MM)") ]),
                ("target_timezone", Json.obj
                  [ ("type", Json.str "string"),
                    ("description", Json.str
                      ("Target IANA timezone name (e.g., 'Asia/Tokyo', 'America/San_Francisco'). Use '"
                        ++ local_tz ++ "' as local timezone if no target timezone provided by the user.")) ]) ]),
            ("required", Json.arr
              [Json.str "source_timezone", Json.str "time", Json.str "target_timezone"]) ]) ] ]

/-- A successfully parsed JSON body of a direct POST to `/mcp`, projected to
what the handler reads: `json_data.get("method")` (absent key gives `none`),
`json_data.get("id")` (absent key gives JSON null in the echoed envelope),
and the untouched rest of the envelope (`params`), which the handler never
reads. -/
structure DirectRequest where
  method : Option String
  id : Json
  params : Json
deriving Repr

/-- Python's `f"{x}"` rendering of the `method` value in the method-not-found
message: `None` when the key was absent. -/
def pyShow : Option String → String
  | none => "None"
  | some s => s

/-- One logging call made by `handle_direct_post`: the `logger.info` of the
parsed request, or the `logger.error` with the exception detail. -/
inductive LogEvent where
  | infoRequest (req : DirectRequest) : LogEvent
  | errorPost (detail : String) : LogEvent
deriving Repr

/-- What a handler sends back: HTTP status, JSON body (JSON null stands for
the empty body of the bare 202 response), plus the server-side log it wrote. -/
structure DirectResponse where
  status : Nat
  body : Json
  log : List LogEvent
deriving Repr

/-- `handle_direct_post`: the stateless handler for POST `/mcp`.  Its input
is the outcome of `await request.json()`: either a parse failure carrying
`str(e)` of the raised exception, or the parsed envelope.  Note the handled
methods: `initialize`, `notifications/initialized`, `tools/list`; every other
method, `tools/call` included, falls into the method-not-found branch. -/
def handle_direct_post (local_tz : String) :
    Except String DirectRequest → DirectResponse
  | Except.error detail =>
      { status := 500,
        body := Json.obj
          [ ("jsonrpc", Json.str "2.0"),
            ("id", Json.null),
            ("error", Json.obj
              [ ("code", Json.num (-32603)),
                ("message", Json.str ("Internal error: " ++ detail)) ]) ],
        log := [LogEvent.errorPost detail] }
  | Except.ok req =>
      if req.method = some "initialize" then
        { status := 200,
          body := Json.obj
            [ ("jsonrpc", Json.str "2.0"),
              ("id", req.id),
              ("result", Json.obj
                [ ("protocolVersion", Json.str "2024-11-05"),
                  ("capabilities", Json.obj
                    [ ("experimental", Json.obj []),
                      ("tools", Json.obj [("listChanged", Json.bool false)]) ]),
                  ("serverInfo", Json.obj
                    [ ("name", Json.str "mcp-time"),
                      ("version", Json.str "1.0.0") ]) ]) ],
          log := [LogEvent.infoRequest req] }
      else if req.method = some "notifications/initialized" then
        { status := 202, body := Json.null, log := [LogEvent.infoRequest req] }
      else if req.method = some "tools/list" then
        { status := 200,
          body := Json.obj
            [ ("jsonrpc", Json.str "2.0"),
              ("id", req.id),
              ("result", Json.obj [("tools", Json.arr (direct_tools_list local_tz))]) ],
          log := [LogEvent.infoRequest req] }
      else
        { status := 400,
          body := Json.obj
            [ ("jsonrpc", Json.str "2.0"),
              ("id", req.id),
              ("error", Json.obj
                [ ("code", Json.num (-32601)),
                  ("message", Json.str ("Method not found: " ++ pyShow req.method)) ]) ],
          log := [LogEvent.infoRequest req] }

/-- Which handler (or fixed response) the top-level `app` hands an HTTP
request to. -/
inductive RouteAction where
  | handleMcpSse : RouteAction
  | handleDirectPost : RouteAction
  | handlePostMessages : RouteAction
  | sendHealth : RouteAction
  | sendMcpConfig : RouteAction
  | send404 : RouteAction
deriving Repr, DecidableEq

/-- The routing of the top-level ASGI `app` for a scope of type `"http"`:
`none` means the `app` coroutine returns without sending any response
message at all (the `/mcp` branch has no arm for methods other than GET and
POST). -/
def app (path method : String) : Option RouteAction :=
  if path = "/mcp" then
    if method = "GET" then some RouteAction.handleMcpSse
    else if method = "POST" then some RouteAction.handleDirectPost
    else none
  else if path = "/messages" ∧ method = "POST" then some RouteAction.handlePostMessages
  else if path = "/" ∨ path = "/health" then some RouteAction.sendHealth
  else if path = "/.well-known/mcp-config" then some RouteAction.sendMcpConfig
  else some RouteAction.send404

/-- State of one session-based dispatcher (per open SSE stream). -/
inductive SessionState where
  | awaitingInit : SessionState
  | ready : SessionState
  | closed : SessionState
deriving Repr, DecidableEq

/-- The response envelope a session writes back for one `tools/call`. -/
inductive ToolCallResponse where
  | result (content : List TextContent) : ToolCallResponse
  | toolError (message : String) : ToolCallResponse
deriving Repr, DecidableEq

/-- Modelled from the spec: the MCP framework around the registered
`call_tool` handler (the external `mcp` library driven by `server.run`, not
in the sources under inspection) surfaces an exception raised by the handler
as a generic tool-execution error envelope carrying the exception's text,
and the session stays in its current state rather than terminating. -/
def dispatch_tool_call (ops : TimeOps) (st : SessionState) (name : String)
    (arguments : Args) : SessionState × ToolCallResponse :=
  match call_tool ops name arguments with
  | Except.ok content => (st, ToolCallResponse.result content)
  | Except.error m => (st, ToolCallResponse.toolError m)

/-- A concrete operation table used to evaluate the dispatcher at specific
inputs: `UTC` is the only known zone and `14:30` the only well-formed time. -/
def sampleOps : TimeOps where
  get_current_time tz :=
    if tz = "UTC" then Except.ok (Json.obj [("timezone", Json.str "UTC")])
    else Except.error ("Unknown timezone: " ++ tz)
  convert_time _src t _tgt :=
    if t = "14:30" then Except.ok (Json.obj [])
    else Except.error "Invalid time format. Expected HH:MM [24-hour format]"

/-- An operation table that rejects everything, used to exhibit that some
dispatcher outcomes do not depend on the operations at all. -/
def emptyOps : TimeOps where
  get_current_time _tz := Except.error "unreachable"
  convert_time _src _t _tgt := Except.error "unreachable"

/-- The `error.message` string an envelope shows to the client, when present. -/
def clientErrorMessage (r : DirectResponse) : Option String :=
  (r.body.get "error").bind (fun e => (e.get "message").bind Json.asStr)

/-- C1, counterexample.  A `tools/call` envelope POSTed directly to `/mcp`
is answered by the method-not-found branch (JSON-RPC error code -32601,
HTTP 400), not dispatched to the tool-invocation handler: the claim that
`tools/call` is among the methods accepted on the POST tool endpoint fails
at this concrete request. -/
theorem tools_call_on_direct_post_counterexample :
    handle_direct_post "UTC"
      (Except.ok
        { method := some "tools/call",
          id := Json.num 7,
          params := Json.obj
            [ ("name", Json.str "get_current_time"),
              ("arguments", Json.obj [("timezone", Json.str "UTC")]) ] }) =
      { status := 400,
        body := Json.obj
          [ ("jsonrpc", Json.str "2.0"),
            ("id", Json.num 7),
            ("error", Json.obj
              [ ("code", Json.num (-32601)),
                ("message", Json.str "Method not found: tools/call") ]) ],
        log := [LogEvent.infoRequest
          { method := some "tools/call",
            id := Json.num 7,
            params := Json.obj
              [ ("name", Json.str "get_current_time"),
                ("arguments", Json.obj [("timezone", Json.str "UTC")]) ] }] } := by
  rfl

/-- C1, amended.  Every `tools/call` envelope POSTed directly to `/mcp`
receives the method-not-found error envelope (code -32601, HTTP 400)
echoing the request's id; the direct POST endpoint accepts only
`initialize`, `notifications/initialized` and `tools/list`, and `tools/call`
is dispatched to the tool-invocation handler only on the session-based
path. -/
theorem tools_call_on_direct_post_is_method_not_found (local_tz : String)
    (req : DirectRequest) (h : req.method = some "tools/call") :
    handle_direct_post local_tz (Except.ok req) =
      { status := 400,
        body := Json.obj
          [ ("jsonrpc", Json.str "2.0"),
            ("id", req.id),
            ("error", Json.obj
              [ ("code", Json.num (-32601)),
                ("message", Json.str "Method not found: tools/call") ]) ],
        log := [LogEvent.infoRequest req] } := by
  simp [handle_direct_post, h, pyShow]

/-- Witness for the amended C1 theorem at a concrete request. -/
theorem tools_call_on_direct_post_is_method_not_found_witness :
    handle_direct_post "UTC"
      (Except.ok { method := some "tools/call", id := Json.str "a", params := Json.null }) =
      { status := 400,
        body := Json.obj
          [ ("jsonrpc", Json.str "2.0"),
            ("id", Json.str "a"),
            ("error", Json.obj
              [ ("code", Json.num (-32601)),
                ("message", Json.str "Method not found: tools/call") ]) ],
        log := [LogEvent.infoRequest
          { method := some "tools/call", id := Json.str "a", params := Json.null }] } :=
  tools_call_on_direct_post_is_method_not_found "UTC"
    { method := some "tools/call", id := Json.str "a", params := Json.null } rfl

/-- C8, counterexample.  On a malformed JSON body the client-visible
`error.message` is "Internal error: " followed verbatim by the internal
failure detail: two different parse failures produce two different client
messages, each embedding its detail, so the message is not generic and does
expose the internal failure detail. -/
theorem internal_error_message_exposes_detail :
    clientErrorMessage (handle_direct_post "UTC"
        (Except.error "Expecting value: line 1 column 1 (char 0)")) =
      some "Internal error: Expecting value: line 1 column 1 (char 0)" ∧
    clientErrorMessage (handle_direct_post "UTC"
        (Except.error "Unterminated string starting at: line 1 column 2 (char 1)")) =
      some "Internal error: Unterminated string starting at: line 1 column 2 (char 1)" ∧
    clientErrorMessage (handle_direct_post "UTC"
        (Except.error "Expecting value: line 1 column 1 (char 0)")) ≠
      clientErrorMessage (handle_direct_post "UTC"
        (Except.error "Unterminated string starting at: line 1 column 2 (char 1)")) ∧
    (handle_direct_post "UTC"
        (Except.error "Expecting value: line 1 column 1 (char 0)")).log =
      [LogEvent.errorPost "Expecting value: line 1 column 1 (char 0)"] := by
  refine ⟨rfl, rfl, ?_, rfl⟩
  decide

/-- C8, amended.  For every failure caught by the direct-POST handler's
catch-all (for example a malformed JSON body), the returned envelope is the
-32603 internal error whose message is "Internal error: " followed by the
failure detail — the detail is exposed to the client — and the same detail
is logged server-side. -/
theorem internal_error_envelope (local_tz detail : String) :
    handle_direct_post local_tz (Except.error detail) =
      { status := 500,
        body := Json.obj
          [ ("jsonrpc", Json.str "2.0"),
            ("id", Json.null),
            ("error", Json.obj
              [ ("code", Json.num (-32603)),
                ("message", Json.str ("Internal error: " ++ detail)) ]) ],
        log := [LogEvent.errorPost detail] } := by
  rfl

/-- C9.  For `get_current_time`, the key "timezone" bound to the empty
string trips the same missing-argument failure as an absent key (Python's
falsy test), while for `convert_time` an empty-string value passes the
key-presence check and is forwarded unchanged to the operation: the call's
outcome is exactly the wrapped outcome of `convert_time("", "14:30",
"UTC")`, whatever the operations are. -/
theorem empty_string_argument_handling (ops : TimeOps) :
    call_tool ops TimeTools.GET_CURRENT_TIME [("timezone", "")] =
      Except.error "Error processing mcp-server-time query: Missing required argument: timezone" ∧
    call_tool ops TimeTools.GET_CURRENT_TIME [("timezone", "")] =
      call_tool ops TimeTools.GET_CURRENT_TIME [] ∧
    call_tool ops TimeTools.CONVERT_TIME
        [("source_timezone", ""), ("time", "14:30"), ("target_timezone", "UTC")] =
      (match ops.convert_time "" "14:30" "UTC" with
       | Except.ok r => Except.ok [TextContent.mk "text" (Json.dumps r)]
       | Except.error e =>
           Except.error ("Error processing mcp-server-time query: " ++ e)) := by
  refine ⟨rfl, rfl, ?_⟩
  cases h : ops.convert_time "" "14:30" "UTC" <;>
    simp [call_tool, call_tool_body, getArg, hasArg, h,
      TimeTools.GET_CURRENT_TIME, TimeTools.CONVERT_TIME]

/-- C10.  An HTTP request for the `/mcp` path whose method is neither GET
nor POST falls through the `/mcp` branch of the ASGI `app` with no arm to
run: no handler is invoked and no response message is sent — in particular
the 404 branch used for unknown paths is not taken. -/
theorem mcp_unsupported_method_no_response (method : String)
    (h1 : method ≠ "GET") (h2 : method ≠ "POST") :
    app "/mcp" method = none ∧ app "/mcp" method ≠ some RouteAction.send404 := by
  have e : app "/mcp" method = none := by simp [app, h1, h2]
  exact ⟨e, by simp [e]⟩

/-- Witness for the C10 theorem at the concrete method DELETE. -/
theorem mcp_unsupported_method_no_response_witness :
    app "/mcp" "DELETE" = none ∧ app "/mcp" "DELETE" ≠ some RouteAction.send404 :=
  mcp_unsupported_method_no_response "DELETE" (by decide) (by decide)

/-- C2.  When a named operation fails with a domain error, `call_tool`'s
`except` clause catches it and the surrounding dispatcher surfaces it to the
caller as a tool-execution error whose text embeds the failure's
human-readable message, and the session state is unchanged (in particular
not closed). -/
theorem domain_failures_become_tool_errors (ops : TimeOps)
    (tz msg src t tgt msg2 : String) (h1 : tz ≠ "")
    (h2 : ops.get_current_time tz = Except.error msg)
    (h3 : ops.convert_time src t tgt = Except.error msg2) :
    dispatch_tool_call ops SessionState.ready TimeTools.GET_CURRENT_TIME
        [("timezone", tz)] =
      (SessionState.ready,
        ToolCallResponse.toolError ("Error processing mcp-server-time query: " ++ msg)) ∧
    dispatch_tool_call ops SessionState.ready TimeTools.CONVERT_TIME
        [("source_timezone", src), ("time", t), ("target_timezone", tgt)] =
      (SessionState.ready,
        ToolCallResponse.toolError ("Error processing mcp-server-time query: " ++ msg2)) := by
  constructor
  · simp [dispatch_tool_call, call_tool, call_tool_body, getArg, h1, h2,
      TimeTools.GET_CURRENT_TIME, TimeTools.CONVERT_TIME]
  · simp [dispatch_tool_call, call_tool, call_tool_body, getArg, hasArg, h3,
      TimeTools.GET_CURRENT_TIME, TimeTools.CONVERT_TIME]

/-- Witness for the C2 theorem: an unknown timezone and a malformed time
string against the concrete `sampleOps` table. -/
theorem domain_failures_become_tool_errors_witness :
    dispatch_tool_call sampleOps SessionState.ready TimeTools.GET_CURRENT_TIME
        [("timezone", "Not/AZone")] =
      (SessionState.ready,
        ToolCallResponse.toolError
          ("Error processing mcp-server-time query: " ++ "Unknown timezone: Not/AZone")) ∧
    dispatch_tool_call sampleOps SessionState.ready TimeTools.CONVERT_TIME
        [("source_timezone", "UTC"), ("time", "25:00"), ("target_timezone", "UTC")] =
      (SessionState.ready,
        ToolCallResponse.toolError
          ("Error processing mcp-server-time query: " ++
            "Invalid time format. Expected HH:MM [24-hour format]")) :=
  domain_failures_become_tool_errors sampleOps "Not/AZone"
    "Unknown timezone: Not/AZone" "UTC" "25:00" "UTC"
    "Invalid time format. Expected HH:MM [24-hour format]"
    (by decide) (by rfl) (by rfl)

/-- C3, counterexample.  Two `convert_time` calls missing two different
required fields ("time" in the first, "source_timezone" in the second)
produce the identical generic message "Missing required arguments": the
error message does not name the missing field, refuting the claim that it
does. -/
theorem convert_time_missing_field_message_is_generic :
    call_tool sampleOps TimeTools.CONVERT_TIME
        [("source_timezone", "UTC"), ("target_timezone", "UTC")] =
      Except.error "Error processing mcp-server-time query: Missing required arguments" ∧
    call_tool sampleOps TimeTools.CONVERT_TIME
        [("time", "14:30"), ("target_timezone", "UTC")] =
      Except.error "Error processing mcp-server-time query: Missing required arguments" := by
  exact ⟨rfl, rfl⟩

/-- C3, amended.  A required argument that is absent (or, for
`get_current_time`, falsy) makes the call fail with a missing-argument
error; the message names the field for `get_current_time` ("Missing
required argument: timezone") but is the generic "Missing required
arguments", naming no field, for `convert_time`. -/
theorem missing_argument_errors (ops : TimeOps) (args1 args2 : Args)
    (h1 : getArg args1 "timezone" = none ∨ getArg args1 "timezone" = some "")
    (h2 : (hasArg args2 "source_timezone" && hasArg args2 "time" &&
      hasArg args2 "target_timezone") = false) :
    call_tool ops TimeTools.GET_CURRENT_TIME args1 =
      Except.error "Error processing mcp-server-time query: Missing required argument: timezone" ∧
    call_tool ops TimeTools.CONVERT_TIME args2 =
      Except.error "Error processing mcp-server-time query: Missing required arguments" := by
  constructor
  · rcases h1 with h | h <;>
      simp [call_tool, call_tool_body, h, TimeTools.GET_CURRENT_TIME,
        TimeTools.CONVERT_TIME]
  · simp [call_tool, call_tool_body, h2, TimeTools.GET_CURRENT_TIME,
      TimeTools.CONVERT_TIME]

/-- Witness for the amended C3 theorem: an empty arguments mapping for
`get_current_time` and a mapping missing "time" and "target_timezone" for
`convert_time`. -/
theorem missing_argument_errors_witness :
    call_tool sampleOps TimeTools.GET_CURRENT_TIME [] =
      Except.error "Error processing mcp-server-time query: Missing required argument: timezone" ∧
    call_tool sampleOps TimeTools.CONVERT_TIME [("source_timezone", "UTC")] =
      Except.error "Error processing mcp-server-time query: Missing required arguments" :=
  missing_argument_errors sampleOps [] [("source_timezone", "UTC")]
    (Or.inl rfl) (by decide)

/-- C4.  A `tools/call` whose tool name is neither `get_current_time` nor
`convert_time` fails with the unknown-tool error identifying the name, and
its outcome is the same for every operation table — no time operation is
invoked. -/
theorem unknown_tool_error (ops ops2 : TimeOps) (name : String) (arguments : Args)
    (h1 : name ≠ TimeTools.GET_CURRENT_TIME) (h2 : name ≠ TimeTools.CONVERT_TIME) :
    call_tool ops name arguments =
      Except.error ("Error processing mcp-server-time query: " ++
        ("Unknown tool: " ++ name)) ∧
    call_tool ops name arguments = call_tool ops2 name arguments := by
  have e : ∀ o : TimeOps, call_tool o name arguments =
      Except.error ("Error processing mcp-server-time query: " ++
        ("Unknown tool: " ++ name)) := by
    intro o
    simp [call_tool, call_tool_body, h1, h2]
  exact ⟨e ops, (e ops).trans (e ops2).symm⟩

/-- Witness for the C4 theorem at the concrete name "unknown_tool", against
two different operation tables. -/
theorem unknown_tool_error_witness :
    call_tool sampleOps "unknown_tool" [("timezone", "UTC")] =
      Except.error ("Error processing mcp-server-time query: " ++
        ("Unknown tool: " ++ "unknown_tool")) ∧
    call_tool sampleOps "unknown_tool" [("timezone", "UTC")] =
      call_tool emptyOps "unknown_tool" [("timezone", "UTC")] :=
  unknown_tool_error sampleOps emptyOps "unknown_tool" [("timezone", "UTC")]
    (by decide) (by decide)

/-- C5.  `tools/list` is served from a static registry: the session handler
returns exactly the two descriptors `get_current_time` and `convert_time`,
the direct-POST handler returns the same two names inside a result
envelope, and two `tools/list` requests with the same id receive the same
status and body (the handlers are pure, so repeated calls have no side
effects beyond the request log line). -/
theorem tools_list_static_and_idempotent (local_tz : String) (req : DirectRequest)
    (h : req.method = some "tools/list") :
    (list_tools local_tz).map Tool.name =
      [TimeTools.GET_CURRENT_TIME, TimeTools.CONVERT_TIME] ∧
    (list_tools local_tz).length = 2 ∧
    (direct_tools_list local_tz).map (fun j => j.get "name") =
      [some (Json.str "get_current_time"), some (Json.str "convert_time")] ∧
    handle_direct_post local_tz (Except.ok req) =
      { status := 200,
        body := Json.obj
          [ ("jsonrpc", Json.str "2.0"),
            ("id", req.id),
            ("result", Json.obj [("tools", Json.arr (direct_tools_list local_tz))]) ],
        log := [LogEvent.infoRequest req] } ∧
    (∀ req2 : DirectRequest, req2.method = some "tools/list" → req2.id = req.id →
      (handle_direct_post local_tz (Except.ok req2)).status =
        (handle_direct_post local_tz (Except.ok req)).status ∧
      (handle_direct_post local_tz (Except.ok req2)).body =
        (handle_direct_post local_tz (Except.ok req)).body) := by
  refine ⟨rfl, rfl, rfl, ?_, ?_⟩
  · simp [handle_direct_post, h]
  · intro req2 h2 hid
    constructor
    · simp [handle_direct_post, h, h2]
    · simp [handle_direct_post, h, h2, hid]

/-- Witness for the C5 theorem at a concrete `tools/list` request. -/
theorem tools_list_static_and_idempotent_witness :
    (list_tools "UTC").map Tool.name =
      [TimeTools.GET_CURRENT_TIME, TimeTools.CONVERT_TIME] ∧
    (list_tools "UTC").length = 2 ∧
    (direct_tools_list "UTC").map (fun j => j.get "name") =
      [some (Json.str "get_current_time"), some (Json.str "convert_time")] ∧
    handle_direct_post "UTC"
        (Except.ok { method := some "tools/list", id := Json.num 1, params := Json.null }) =
      { status := 200,
        body := Json.obj
          [ ("jsonrpc", Json.str "2.0"),
            ("id", Json.num 1),
            ("result", Json.obj [("tools", Json.arr (direct_tools_list "UTC"))]) ],
        log := [LogEvent.infoRequest
          { method := some "tools/list", id := Json.num 1, params := Json.null }] } ∧
    (∀ req2 : DirectRequest, req2.method = some "tools/list" → req2.id = Json.num 1 →
      (handle_direct_post "UTC" (Except.ok req2)).status =
        (handle_direct_post "UTC" (Except.ok
          { method := some "tools/list", id := Json.num 1, params := Json.null })).status ∧
      (handle_direct_post "UTC" (Except.ok req2)).body =
        (handle_direct_post "UTC" (Except.ok
          { method := some "tools/list", id := Json.num 1, params := Json.null })).body) :=
  tools_list_static_and_idempotent "UTC"
    { method := some "tools/list", id := Json.num 1, params := Json.null } rfl

/-- C6.  An envelope whose method is none of the recognized ones is answered
with the method-not-found error envelope `{jsonrpc, id, error: {code:
-32601, message}}` echoing the request's id; the handler returns this
response normally rather than aborting the connection. -/
theorem unrecognized_method_error_envelope (local_tz : String) (req : DirectRequest)
    (h1 : req.method ≠ some "initialize")
    (h2 : req.method ≠ some "notifications/initialized")
    (h3 : req.method ≠ some "tools/list")
    (_h4 : req.method ≠ some "tools/call") :
    handle_direct_post local_tz (Except.ok req) =
      { status := 400,
        body := Json.obj
          [ ("jsonrpc", Json.str "2.0"),
            ("id", req.id),
            ("error", Json.obj
              [ ("code", Json.num (-32601)),
                ("message", Json.str ("Method not found: " ++ pyShow req.method)) ]) ],
        log := [LogEvent.infoRequest req] } := by
  simp [handle_direct_post, h1, h2, h3]

/-- Witness for the C6 theorem at the concrete unrecognized method "ping". -/
theorem unrecognized_method_error_envelope_witness :
    handle_direct_post "UTC"
      (Except.ok { method := some "ping", id := Json.num 3, params := Json.null }) =
      { status := 400,
        body := Json.obj
          [ ("jsonrpc", Json.str "2.0"),
            ("id", Json.num 3),
            ("error", Json.obj
              [ ("code", Json.num (-32601)),
                ("message", Json.str ("Method not found: " ++ pyShow (some "ping"))) ]) ],
        log := [LogEvent.infoRequest
          { method := some "ping", id := Json.num 3, params := Json.null }] } :=
  unrecognized_method_error_envelope "UTC"
    { method := some "ping", id := Json.num 3, params := Json.null }
    (by decide) (by decide) (by decide) (by decide)

/-- C7.  Every `initialize` request is answered 200 with a result carrying
the protocol version "2024-11-05" and the capability flags — a `tools`
capability advertised with `listChanged: false` — and the response depends
only on the request's id, not on its params. -/
theorem init_request_response (local_tz : String) (req : DirectRequest)
    (h : req.method = some "initialize") :
    handle_direct_post local_tz (Except.ok req) =
      { status := 200,
        body := Json.obj
          [ ("jsonrpc", Json.str "2.0"),
            ("id", req.id),
            ("result", Json.obj
              [ ("protocolVersion", Json.str "2024-11-05"),
                ("capabilities", Json.obj
                  [ ("experimental", Json.obj []),
                    ("tools", Json.obj [("listChanged", Json.bool false)]) ]),
                ("serverInfo", Json.obj
                  [ ("name", Json.str "mcp-time"),
                    ("version", Json.str "1.0.0") ]) ]) ],
        log := [LogEvent.infoRequest req] } ∧
    ((handle_direct_post local_tz (Except.ok req)).body.get "result").bind
        (fun r => (r.get "capabilities").bind
          (fun c => (c.get "tools").bind (fun t => t.get "listChanged"))) =
      some (Json.bool false) ∧
    (∀ req2 : DirectRequest, req2.method = some "initialize" → req2.id = req.id →
      (handle_direct_post local_tz (Except.ok req2)).status =
        (handle_direct_post local_tz (Except.ok req)).status ∧
      (handle_direct_post local_tz (Except.ok req2)).body =
        (handle_direct_post local_tz (Except.ok req)).body) := by
  refine ⟨?_, ?_, ?_⟩
  · simp [handle_direct_post, h]
  · simp [handle_direct_post, h, Json.get]
  · intro req2 h2 hid
    constructor
    · simp [handle_direct_post, h, h2]
    · simp [handle_direct_post, h, h2, hid]

/-- Witness for the C7 theorem at a concrete `initialize` request. -/
theorem init_request_response_witness :
    handle_direct_post "UTC"
        (Except.ok (DirectRequest.mk (some "initialize") (Json.num 0)
          (Json.obj [("clientInfo", Json.str "scanner")]))) =
      { status := 200,
        body := Json.obj
          [ ("jsonrpc", Json.str "2.0"),
            ("id", Json.num 0),
            ("result", Json.obj
              [ ("protocolVersion", Json.str "2024-11-05"),
                ("capabilities", Json.obj
                  [ ("experimental", Json.obj []),
                    ("tools", Json.obj [("listChanged", Json.bool false)]) ]),
                ("serverInfo", Json.obj
                  [ ("name", Json.str "mcp-time"),
                    ("version", Json.str "1.0.0") ]) ]) ],
        log := [LogEvent.infoRequest
          (DirectRequest.mk (some "initialize") (Json.num 0)
            (Json.obj [("clientInfo", Json.str "scanner")]))] } ∧
    ((handle_direct_post "UTC"
        (Except.ok (DirectRequest.mk (some "initialize") (Json.num 0)
          (Json.obj [("clientInfo", Json.str "scanner")])))).body.get "result").bind
        (fun r => (r.get "capabilities").bind
          (fun c => (c.get "tools").bind (fun t => t.get "listChanged"))) =
      some (Json.bool false) ∧
    (∀ req2 : DirectRequest, req2.method = some "initialize" → req2.id = Json.num 0 →
      (handle_direct_post "UTC" (Except.ok req2)).status =
        (handle_direct_post "UTC" (Except.ok
          (DirectRequest.mk (some "initialize") (Json.num 0)
            (Json.obj [("clientInfo", Json.str "scanner")])))).status ∧
      (handle_direct_post "UTC" (Except.ok req2)).body =
        (handle_direct_post "UTC" (Except.ok
          (DirectRequest.mk (some "initialize") (Json.num 0)
            (Json.obj [("clientInfo", Json.str "scanner")])))).body) :=
  init_request_response "UTC"
    (DirectRequest.mk (some "initialize") (Json.num 0)
      (Json.obj [("clientInfo", Json.str "scanner")])) rfl
